import Mathlib

/-!
Shallow embedding of `src/scripts/run_evaluation.py`, the evaluation harness
of the omnifocus-mcp repository.

The harness replays question/answer pairs against a model service that may
request tool calls, judges each produced answer by case-insensitive substring
containment, optionally lets an operator promote a produced answer into the
ground truth, and writes the dataset back when updates were made.

External collaborators (the Anthropic model service, the MCP tool server and
the interactive operator) are modelled as oracle functions; fallible calls
return `Except`.  Python strings are Lean `String`s (lists of characters);
Python `str.lower` is modelled by mapping `Char.toLower` and Python
`str.strip` by dropping whitespace at both ends.
-/

namespace RunEval

/-- Python whitespace characters stripped by `str.strip()` (ASCII range). -/
def isPySpace (c : Char) : Bool :=
  c == ' ' || c == '\t' || c == '\n' || c == '\r' ||
    c == Char.ofNat 11 || c == Char.ofNat 12

/-- Python `s.strip()`: remove leading and trailing whitespace. -/
def pyStrip (s : String) : String :=
  ⟨(((s.data.dropWhile isPySpace).reverse.dropWhile isPySpace).reverse)⟩

/-- Python `s.lower()` (ASCII case mapping, as in `Char.toLower`). -/
def pyLower (s : String) : String :=
  ⟨s.data.map Char.toLower⟩

/-- Executable check that `n` starts the list `h`; models how Python compares
the candidate window during a substring scan. -/
def prefixOf : List Char → List Char → Bool
  | [], _ => true
  | _ :: _, [] => false
  | a :: as, b :: bs => a == b && prefixOf as bs

/-- Executable translation of Python's `n in h` substring test: scan every
suffix of `h` for `n` at its front. -/
def substrOf (n : List Char) : List Char → Bool
  | [] => prefixOf n []
  | b :: bs => prefixOf n (b :: bs) || substrOf n bs

/-- Line 173 of `run_evaluation.py`:
`passed = pair['answer'].lower() in final_answer.lower()`. -/
def judge (expected actual : String) : Bool :=
  substrOf (pyLower expected).data (pyLower actual).data

theorem prefixOf_iff (n h : List Char) : prefixOf n h = true ↔ n <+: h := by
  induction n generalizing h with
  | nil => simp [prefixOf]
  | cons a as ih =>
    cases h with
    | nil => simp [prefixOf]
    | cons b bs =>
      simp [prefixOf, List.cons_prefix_cons, ih]

theorem substrOf_iff (n h : List Char) : substrOf n h = true ↔ n <:+: h := by
  induction h with
  | nil =>
    simp [substrOf, prefixOf_iff]
  | cons b bs ih =>
    simp [substrOf, prefixOf_iff, ih, List.infix_cons_iff]

/-- One question/ground-truth pair of the dataset (`qa_pairs` entries). -/
structure QAPair where
  question : String
  answer : String
deriving DecidableEq, Repr

/-- One content block of a model-service response: tagged `text` or
`tool_use` (carrying `id`, `name`, `input`); the `input` JSON is opaque. -/
inductive MBlock where
  | text (t : String)
  | tool_use (id name input : String)
deriving DecidableEq, Repr

/-- A model-service response: `stop_reason` plus an ordered content list. -/
structure MResponse where
  stop_reason : String
  content : List MBlock
deriving DecidableEq, Repr

/-- A `tool_result` block echoing the request id (lines 141-145). -/
structure ToolResultBlock where
  tool_use_id : String
  content : String
deriving DecidableEq, Repr

/-- Message content: plain text, an assistant response's raw blocks, or the
user message holding the tool results. -/
inductive MsgContent where
  | text (t : String)
  | blocks (bs : List MBlock)
  | toolResults (rs : List ToolResultBlock)
deriving DecidableEq, Repr

/-- One conversation message. -/
structure Message where
  role : String
  content : MsgContent
deriving DecidableEq, Repr

/-- One content item returned by the tool server: either it exposes a `text`
field or it is stringified generically (lines 135-139). -/
inductive ContentItem where
  | textItem (text : String)
  | otherItem (s : String)
deriving DecidableEq, Repr

/-- The model service oracle: `client.messages.create` may also raise, which
is modelled by `Except`. -/
def ModelService := List Message → Except String MResponse

/-- The tool server oracle: `session.call_tool(name, input)`; an execution
failure is an `Except.error`. -/
def ToolServer := String → String → Except String (List ContentItem)

/-- The interactive operator: the reply typed at the update prompt of
question `i`. -/
def Operator := Nat → String

/-- One externally observable call made during a question's turn. -/
inductive Event where
  | modelCall
  | toolCall (name input : String)
deriving DecidableEq, Repr

/-- Lines 134-139: concatenate the textual representation of every content
item returned by the tool server into one string. -/
def contentToStr (items : List ContentItem) : String :=
  items.foldl
    (fun acc it =>
      match it with
      | .textItem t => acc ++ t
      | .otherItem s => acc ++ s) ""

/-- Lines 159-166: concatenate the `text` blocks of a response's content. -/
def concatTexts (bs : List MBlock) : String :=
  bs.foldl
    (fun acc b =>
      match b with
      | .text t => acc ++ t
      | _ => acc) ""

/-- Lines 126-148: the tool-execution loop of one turn.  Every `tool_use`
block of the first response triggers exactly one synchronous tool call, in
emission order; a failing call aborts the loop.  Returns the accumulated
`tool_result` blocks and the trace of tool calls issued. -/
def execTools (tool : ToolServer) :
    List MBlock → Except String (List ToolResultBlock) × List Event
  | [] => (.ok [], [])
  | .text _ :: rest => execTools tool rest
  | .tool_use id name inp :: rest =>
    match tool name inp with
    | .error e => (.error e, [.toolCall name inp])
    | .ok items =>
      match execTools tool rest with
      | (.error e, evs) => (.error e, .toolCall name inp :: evs)
      | (.ok rs, evs) =>
        (.ok (⟨id, contentToStr items⟩ :: rs), .toolCall name inp :: evs)

/-- Lines 109-168: drive one question through the model service.  First model
call; if `stop_reason == "tool_use"`, append the assistant blocks, execute
the tools, append the tool results as one user message and make exactly one
more model call; the final answer is the concatenated text of the last
response, stripped.  Returns the outcome and the trace of external calls. -/
def runQuestion (model : ModelService) (tool : ToolServer) (question : String) :
    Except String String × List Event :=
  let messages : List Message := [⟨"user", .text question⟩]
  match model messages with
  | .error e => (.error e, [.modelCall])
  | .ok response =>
    if response.stop_reason = "tool_use" then
      let messages := messages ++ [⟨"assistant", .blocks response.content⟩]
      match execTools tool response.content with
      | (.error e, evs) => (.error e, .modelCall :: evs)
      | (.ok toolResults, evs) =>
        let messages := messages ++ [⟨"user", .toolResults toolResults⟩]
        match model messages with
        | .error e => (.error e, .modelCall :: evs ++ [.modelCall])
        | .ok finalResponse =>
          (.ok (pyStrip (concatTexts finalResponse.content)),
            .modelCall :: evs ++ [.modelCall])
    else
      (.ok (pyStrip (concatTexts response.content)), [.modelCall])

/-- Lines 175-188: the update controller.  Only on a failed judgment in
update mode is the operator prompted; the reply, lowercased, must equal
exactly `"y"` to accept.  Accepting overwrites the pair's answer with the
produced answer, marks the result passed and sets `updates_made`. -/
def updateStep (updateMode : Bool) (reply : String) (pair : QAPair)
    (finalAnswer : String) (passed updatesMade : Bool) :
    QAPair × Bool × Bool :=
  if !passed && updateMode then
    if pyLower reply = "y" then
      ({ pair with answer := finalAnswer }, true, true)
    else
      (pair, passed, updatesMade)
  else
    (pair, passed, updatesMade)

/-- Lines 193-198: the record appended to `results` for one question. -/
structure EvalResult where
  question : String
  expected : String
  actual : String
  passed : Bool
deriving DecidableEq, Repr

/-- What one pass of the evaluation loop (lines 105-198) produces: the
results gathered, the (possibly mutated) dataset, the `updates_made` flag and
whether the loop was aborted by an exception. -/
structure LoopOut where
  results : List EvalResult
  pairs : List QAPair
  updatesMade : Bool
  aborted : Bool
deriving DecidableEq, Repr

/-- Lines 105-198: process the remaining pairs in order, starting at index
`i` with `updates_made = um`.  An exception from a question's turn aborts the
loop (the surrounding `try` of line 90 catches it at run level): no result is
recorded for that question and the remaining pairs are left untouched. -/
def evalLoop (model : ModelService) (tool : ToolServer) (updateMode : Bool)
    (op : Operator) : List QAPair → Nat → Bool → LoopOut
  | [], _, um => ⟨[], [], um, false⟩
  | p :: rest, i, um =>
    match (runQuestion model tool p.question).1 with
    | .error _ => ⟨[], p :: rest, um, true⟩
    | .ok finalAnswer =>
      let passed := judge p.answer finalAnswer
      let s := updateStep updateMode (op i) p finalAnswer passed um
      let out := evalLoop model tool updateMode op rest (i + 1) s.2.2
      ⟨⟨s.1.question, s.1.answer, finalAnswer, s.2.1⟩ :: out.results,
        s.1 :: out.pairs, out.updatesMade, out.aborted⟩

/-- Lines 210-216: the summary counts printed at run end. -/
structure Summary where
  total : Nat
  passedCount : Nat
  failedCount : Nat
deriving DecidableEq, Repr

/-- `passed_count = sum(1 for r in results if r['passed'])`;
`failed = len(results) - passed_count`. -/
def mkSummary (rs : List EvalResult) : Summary :=
  ⟨rs.length, rs.countP (fun r => r.passed), rs.length - rs.countP (fun r => r.passed)⟩

/-- An XML element as built and consumed by the harness: tag, optional text,
child elements.  Tail whitespace is irrelevant to the loader and omitted. -/
inductive XElem where
  | mk (tag : String) (text : Option String) (children : List XElem)

/-- The element's tag. -/
def XElem.tag : XElem → String
  | .mk t _ _ => t

/-- The element's text content. -/
def XElem.text : XElem → Option String
  | .mk _ t _ => t

/-- The element's direct children. -/
def XElem.children : XElem → List XElem
  | .mk _ _ c => c

/-- The indentation string `"\n" + "  " * lvl` used by `ET.indent` with
`space="  "`. -/
def indentStr (lvl : Nat) : String :=
  "\n" ++ String.mk (List.replicate (2 * lvl) ' ')

mutual

/-- Line 35, `ET.indent(root, space="  ", level=0)`: an element with children
whose own text is missing or whitespace gets the next level's indentation as
text; leaf elements keep their text untouched. -/
def indentElem (lvl : Nat) : XElem → XElem
  | .mk tag txt children =>
    match children with
    | [] => .mk tag txt []
    | c :: cs =>
      let txt2 :=
        if (match txt with | none => true | some t => pyStrip t = "")
        then some (indentStr (lvl + 1)) else txt
      .mk tag txt2 (indentChildren (lvl + 1) (c :: cs))

/-- Indent every element of a child list. -/
def indentChildren (lvl : Nat) : List XElem → List XElem
  | [] => []
  | c :: cs => indentElem lvl c :: indentChildren lvl cs

end

/-- Lines 24-39, `save_evaluation_file`: build `<evaluation>` with one
`<qa_pair>` per pair holding `<question>` and `<answer>` text, then indent.
The document written to disk is modelled by the element tree itself. -/
def save_evaluation_file (qa_pairs : List QAPair) : XElem :=
  indentElem 0 (.mk "evaluation" none (qa_pairs.map fun p =>
    .mk "qa_pair" none
      [.mk "question" (some p.question) [],
       .mk "answer" (some p.answer) []]))

/-- `root.findall(tag)`: the direct children with the given tag, in order. -/
def findall (e : XElem) (tag : String) : List XElem :=
  e.children.filter (fun c => c.tag = tag)

/-- `pair.find(tag)`: the first direct child with the given tag, if any. -/
def findChild (e : XElem) (tag : String) : Option XElem :=
  (e.children.filter (fun c => c.tag = tag)).head?

/-- Accessing `.text` of a `find` result and calling `.strip()` on it: both a
missing element and a missing text raise (AttributeError on `None`). -/
def textOf : Option XElem → Except String String
  | none => .error "AttributeError"
  | some e =>
    match e.text with
    | none => .error "AttributeError"
    | some t => .ok t

/-- Lines 69-71: read one `qa_pair` element, stripping both fields. -/
def parsePair (e : XElem) : Except String QAPair := do
  let q ← textOf (findChild e "question")
  let a ← textOf (findChild e "answer")
  .ok ⟨pyStrip q, pyStrip a⟩

/-- Parse every `qa_pair` element in order; the first failure aborts (the
`except` of line 74 ends the run). -/
def parseAll : List XElem → Except String (List QAPair)
  | [] => .ok []
  | e :: rest => do
    let p ← parsePair e
    let ps ← parseAll rest
    .ok (p :: ps)

/-- Lines 64-71: parse the dataset file (modelled as its element tree). -/
def loadPairs (root : XElem) : Except String (List QAPair) :=
  parseAll (findall root "qa_pair")

/-- Everything observable about one whole run (lines 44-216): the gathered
results, the final in-memory dataset, the flags, whether the Dataset Store's
save was invoked and with which document, and the printed summary. -/
structure RunOutput where
  results : List EvalResult
  finalPairs : List QAPair
  updatesMade : Bool
  aborted : Bool
  saveInvoked : Bool
  savedDoc : Option XElem
  summary : Summary

/-- Lines 86-216: run the evaluation loop from a freshly loaded dataset, then
— outside the exception handler — save exactly when `updates_made` holds and
compute the summary, on the normal and the aborted path alike. -/
def runEvaluation (model : ModelService) (tool : ToolServer) (updateMode : Bool)
    (op : Operator) (qaPairs : List QAPair) : RunOutput :=
  let out := evalLoop model tool updateMode op qaPairs 0 false
  { results := out.results
    finalPairs := out.pairs
    updatesMade := out.updatesMade
    aborted := out.aborted
    saveInvoked := out.updatesMade
    savedDoc :=
      if out.updatesMade then some (save_evaluation_file out.pairs) else none
    summary := mkSummary out.results }

/-- Is the event a model-service call? -/
def isModelCallEv : Event → Bool
  | .modelCall => true
  | _ => false

/-- The payload of a tool-call event, if it is one. -/
def toolEvData : Event → Option (String × String)
  | .toolCall n i => some (n, i)
  | _ => none

/-- The `(name, input)` of every `tool_use` block, in emission order. -/
def toolUseReqs : List MBlock → List (String × String)
  | [] => []
  | .text _ :: rest => toolUseReqs rest
  | .tool_use _ n i :: rest => (n, i) :: toolUseReqs rest

/-- The tool-call events the execution loop emits for a block list. -/
def toolEvents : List MBlock → List Event
  | [] => []
  | .text _ :: rest => toolEvents rest
  | .tool_use _ n i :: rest => .toolCall n i :: toolEvents rest

theorem execTools_ok (tool : String → String → List ContentItem)
    (bs : List MBlock) :
    ∃ rs, execTools (fun n i => .ok (tool n i)) bs = (.ok rs, toolEvents bs) := by
  induction bs with
  | nil => exact ⟨[], rfl⟩
  | cons b rest ih =>
    obtain ⟨rs, hrs⟩ := ih
    cases b with
    | text t =>
      exact ⟨rs, by simp [execTools, toolEvents, hrs]⟩
    | tool_use id n i =>
      exact ⟨⟨id, contentToStr (tool n i)⟩ :: rs,
        by simp [execTools, toolEvents, hrs]⟩

theorem toolEvents_countP (bs : List MBlock) :
    (toolEvents bs).countP isModelCallEv = 0 := by
  induction bs with
  | nil => rfl
  | cons b rest ih =>
    cases b <;> simp [toolEvents, List.countP_cons, isModelCallEv, ih]

theorem toolEvents_filterMap (bs : List MBlock) :
    (toolEvents bs).filterMap toolEvData = toolUseReqs bs := by
  induction bs with
  | nil => rfl
  | cons b rest ih =>
    cases b <;> simp [toolEvents, toolUseReqs, List.filterMap_cons, toolEvData, ih]

theorem substrOf_nil_left (h : List Char) : substrOf [] h = true := by
  cases h <;> rfl

/-- C1: for every expected string and every actual answer string, the Judge's
`passed(expected, actual)` is true if and only if `expected`, case-folded,
occurs as a contiguous substring of `actual`, case-folded; no trimming or
other normalization happens inside the Judge. -/
theorem judge_iff_lowered_substring (expected actual : String) :
    judge expected actual = true ↔
      (expected.data.map Char.toLower) <:+: (actual.data.map Char.toLower) :=
  substrOf_iff (expected.data.map Char.toLower) (actual.data.map Char.toLower)

/-- C10: an empty expected answer passes the Judge against every produced
answer, and an empty expected answer is reachable from the loader: a
`qa_pair` whose `answer` element holds only whitespace is trimmed to the
empty string. -/
theorem judge_empty_expected (actual : String) :
    judge "" actual = true ∧
    parsePair (.mk "qa_pair" none
      [.mk "question" (some "q") [], .mk "answer" (some "   ") []]) =
      .ok ⟨"q", ""⟩ :=
  ⟨substrOf_nil_left ((pyLower actual).data), rfl⟩

/-- C2: for every question, at most two model-service calls are issued, the
second exactly when the first response's stop indicator is `tool_use`, and
the tool-server calls issued are exactly one per `tool_use` request of the
first response, in order; in particular the second response's content never
adds a tool call or a third model call. -/
theorem agent_turn_call_protocol (model : List Message → MResponse)
    (tool : String → String → List ContentItem) (q : String) :
    (runQuestion (fun ms => .ok (model ms)) (fun n i => .ok (tool n i))
        q).2.countP isModelCallEv ≤ 2 ∧
    ((runQuestion (fun ms => .ok (model ms)) (fun n i => .ok (tool n i))
        q).2.countP isModelCallEv = 2 ↔
      (model [⟨"user", .text q⟩]).stop_reason = "tool_use") ∧
    (runQuestion (fun ms => .ok (model ms)) (fun n i => .ok (tool n i))
        q).2.filterMap toolEvData =
      (if (model [⟨"user", .text q⟩]).stop_reason = "tool_use"
        then toolUseReqs (model [⟨"user", .text q⟩]).content
        else []) := by
  obtain ⟨rs, hrs⟩ := execTools_ok tool (model [⟨"user", .text q⟩]).content
  by_cases hstop : (model [⟨"user", .text q⟩]).stop_reason = "tool_use"
  · simp [runQuestion, hstop, hrs, List.countP_cons, List.countP_append,
      toolEvents_countP, toolEvents_filterMap, List.filterMap_append,
      isModelCallEv, toolEvData]
  · simp [runQuestion, hstop, List.countP_cons, isModelCallEv, toolEvData]

/-- C7: when the first model response's stop indicator is not `tool_use`, no
tool-server call is made at all and the final answer is the concatenation of
the first response's text segments, stripped of leading and trailing
whitespace. -/
theorem no_tool_use_first_turn (model : List Message → MResponse)
    (tool : ToolServer) (q : String)
    (h : (model [⟨"user", .text q⟩]).stop_reason ≠ "tool_use") :
    runQuestion (fun ms => .ok (model ms)) tool q =
      (.ok (pyStrip (concatTexts (model [⟨"user", .text q⟩]).content)),
        [.modelCall]) := by
  simp [runQuestion, h]

/-- A model service that answers with pure text. -/
def w7Model : List Message → MResponse :=
  fun _ => ⟨"end_turn", [.text "  The answer is 4. "]⟩

/-- A tool server that would fail if it were ever called. -/
def w7Tool : ToolServer := fun _ _ => .error "never called"

/-- Witness for C7 at a concrete pure-text response. -/
theorem no_tool_use_first_turn_witness :
    runQuestion (fun ms => .ok (w7Model ms)) w7Tool "2+2?" =
      (.ok (pyStrip (concatTexts (w7Model [⟨"user", .text "2+2?"⟩]).content)),
        [.modelCall]) :=
  no_tool_use_first_turn w7Model w7Tool "2+2?" (by decide)

/-- C4: in update mode, when the Judge failed the pair, declining the prompt
leaves the pair's answer and its failed status unchanged, while accepting
sets the answer to the produced actual answer, records the result as passed
and sets the run-scoped `updates_made` flag. -/
theorem update_controller_accept_decline (p : QAPair) (actual reply : String)
    (um : Bool) (h : judge p.answer actual = false) :
    (pyLower reply ≠ "y" →
      updateStep true reply p actual (judge p.answer actual) um =
        (p, false, um)) ∧
    (pyLower reply = "y" →
      updateStep true reply p actual (judge p.answer actual) um =
        ({ p with answer := actual }, true, true)) := by
  constructor <;> intro hy <;> simp [updateStep, h, hy]

/-- Witness for C4: expected "4", produced "5", operator replies "n". -/
theorem update_controller_accept_decline_witness :
    (pyLower "n" ≠ "y" →
      updateStep true "n" ⟨"q", "4"⟩ "5" (judge "4" "5") false =
        (⟨"q", "4"⟩, false, false)) ∧
    (pyLower "n" = "y" →
      updateStep true "n" ⟨"q", "4"⟩ "5" (judge "4" "5") false =
        (⟨"q", "5"⟩, true, true)) :=
  update_controller_accept_decline ⟨"q", "4"⟩ "5" "n" false (by decide)

/-- C8: the accept/decline decision is decided solely by whether the typed
reply, lowercased, equals exactly `"y"`; so `"y"` and `"Y"` accept while
`"yes"` and the empty reply decline. -/
theorem update_prompt_exact_y (reply : String) (p : QAPair) (actual : String)
    (um : Bool) :
    (updateStep true reply p actual false um =
      if pyLower reply = "y" then ({ p with answer := actual }, true, true)
      else (p, false, um)) ∧
    pyLower "y" = "y" ∧ pyLower "Y" = "y" ∧
    pyLower "yes" ≠ "y" ∧ pyLower "" ≠ "y" := by
  refine ⟨?_, by decide, by decide, by decide, by decide⟩
  by_cases hy : pyLower reply = "y" <;> simp [updateStep, hy]

/-- C5: a run that ends with `updates_made` false never invokes the Dataset
Store's save; no document is written. -/
theorem no_save_without_updates (model : ModelService) (tool : ToolServer)
    (updateMode : Bool) (op : Operator) (pairs : List QAPair)
    (h : (runEvaluation model tool updateMode op pairs).updatesMade = false) :
    (runEvaluation model tool updateMode op pairs).saveInvoked = false ∧
    (runEvaluation model tool updateMode op pairs).savedDoc = none := by
  have h' : (evalLoop model tool updateMode op pairs 0 false).updatesMade =
      false := h
  exact ⟨h', by simp [runEvaluation, h']⟩

/-- A model service always answering "4" as pure text. -/
def w5Model : ModelService := fun _ => .ok ⟨"end_turn", [.text "4"]⟩

/-- A tool server that would fail if it were ever called. -/
def w5Tool : ToolServer := fun _ _ => .error "never called"

/-- An operator that never accepts. -/
def w5Op : Operator := fun _ => ""

/-- Witness for C5: a one-question run that passes, so no update occurs and
the save is skipped. -/
theorem no_save_without_updates_witness :
    (runEvaluation w5Model w5Tool false w5Op [⟨"2+2?", "4"⟩]).saveInvoked =
      false ∧
    (runEvaluation w5Model w5Tool false w5Op [⟨"2+2?", "4"⟩]).savedDoc =
      none :=
  no_save_without_updates w5Model w5Tool false w5Op [⟨"2+2?", "4"⟩] rfl

/-- C9: even when the evaluation loop aborts early on an exception, the
write-back still runs whenever `updates_made` is true — the save sits outside
the exception handler — and the summary of the already-completed questions is
still produced. -/
theorem abort_path_still_saves (model : ModelService) (tool : ToolServer)
    (updateMode : Bool) (op : Operator) (pairs : List QAPair)
    (h1 : (runEvaluation model tool updateMode op pairs).aborted = true)
    (h2 : (runEvaluation model tool updateMode op pairs).updatesMade = true) :
    (runEvaluation model tool updateMode op pairs).saveInvoked = true ∧
    (runEvaluation model tool updateMode op pairs).savedDoc =
      some (save_evaluation_file
        (runEvaluation model tool updateMode op pairs).finalPairs) ∧
    (runEvaluation model tool updateMode op pairs).summary =
      mkSummary (runEvaluation model tool updateMode op pairs).results := by
  have h' : (evalLoop model tool updateMode op pairs 0 false).updatesMade =
      true := h2
  exact ⟨h', by simp [runEvaluation, h'], rfl⟩

/-- A model service that answers question "q1" with the wrong text and raises
on everything else. -/
def w9Model : ModelService := fun ms =>
  if ms = [⟨"user", .text "q1"⟩] then .ok ⟨"end_turn", [.text "wrong"]⟩
  else .error "api failure"

/-- A tool server that is never reached. -/
def w9Tool : ToolServer := fun _ _ => .error "never called"

/-- An operator that accepts every update prompt. -/
def w9Op : Operator := fun _ => "y"

/-- The two-question dataset for the C9 witness. -/
def w9Pairs : List QAPair := [⟨"q1", "right"⟩, ⟨"q2", "z"⟩]

/-- Witness for C9: question 1 mismatches and the operator accepts the
update; question 2 raises and aborts the loop; the save still happens. -/
theorem abort_path_still_saves_witness :
    (runEvaluation w9Model w9Tool true w9Op w9Pairs).saveInvoked = true ∧
    (runEvaluation w9Model w9Tool true w9Op w9Pairs).savedDoc =
      some (save_evaluation_file
        (runEvaluation w9Model w9Tool true w9Op w9Pairs).finalPairs) ∧
    (runEvaluation w9Model w9Tool true w9Op w9Pairs).summary =
      mkSummary (runEvaluation w9Model w9Tool true w9Op w9Pairs).results :=
  abort_path_still_saves w9Model w9Tool true w9Op w9Pairs rfl rfl

/-- A model service that requests tool `list_dir` for the first question and
answers plainly otherwise. -/
def c3Model : ModelService := fun ms =>
  if ms = [⟨"user", .text "list files"⟩] then
    .ok ⟨"tool_use", [.tool_use "id1" "list_dir" "{}"]⟩
  else .ok ⟨"end_turn", [.text "z"]⟩

/-- A tool server whose every call reports an execution failure. -/
def c3Tool : ToolServer := fun _ _ => .error "tool failed"

/-- An operator that never accepts. -/
def c3Op : Operator := fun _ => ""

/-- The two-question dataset on which the tool failure strikes. -/
def c3Pairs : List QAPair := [⟨"list files", "a.txt"⟩, ⟨"second question", "z"⟩]

/-- C3 counterexample: on a two-question dataset where the first question's
tool call reports an execution failure, the run records no result at all —
the failed question is not evaluated with an empty answer and the run does
not continue to the second question; it is aborted. -/
theorem tool_error_aborts_cex :
    (runEvaluation c3Model c3Tool false c3Op c3Pairs).results = [] ∧
    (runEvaluation c3Model c3Tool false c3Op c3Pairs).aborted = true :=
  ⟨rfl, rfl⟩

/-- C3 amended: a tool execution failure during a question's turn is not
caught per question; it escapes to the run-level handler, which aborts the
remaining dataset with no result recorded for that question, leaves the
dataset untouched, and still produces the (empty) summary without invoking
the save. -/
theorem tool_error_aborts_run (model : ModelService) (tool : ToolServer)
    (updateMode : Bool) (op : Operator) (p : QAPair) (rest : List QAPair)
    (e : String) (h : (runQuestion model tool p.question).1 = .error e) :
    (runEvaluation model tool updateMode op (p :: rest)).results = [] ∧
    (runEvaluation model tool updateMode op (p :: rest)).aborted = true ∧
    (runEvaluation model tool updateMode op (p :: rest)).finalPairs =
      p :: rest ∧
    (runEvaluation model tool updateMode op (p :: rest)).saveInvoked = false ∧
    (runEvaluation model tool updateMode op (p :: rest)).summary =
      mkSummary [] := by
  simp [runEvaluation, evalLoop, h]

/-- Witness for the amended C3 at the concrete failing tool server. -/
theorem tool_error_aborts_run_witness :
    (runEvaluation c3Model c3Tool false c3Op c3Pairs).results = [] ∧
    (runEvaluation c3Model c3Tool false c3Op c3Pairs).aborted = true ∧
    (runEvaluation c3Model c3Tool false c3Op c3Pairs).finalPairs = c3Pairs ∧
    (runEvaluation c3Model c3Tool false c3Op c3Pairs).saveInvoked = false ∧
    (runEvaluation c3Model c3Tool false c3Op c3Pairs).summary =
      mkSummary [] :=
  tool_error_aborts_run c3Model c3Tool false c3Op ⟨"list files", "a.txt"⟩
    [⟨"second question", "z"⟩] "tool failed" rfl

/-- No C0 control character and no DEL occurs in the string (the exclusion
the round-trip property states). -/
def noControl (s : String) : Bool :=
  s.data.all fun c => decide (32 ≤ c.toNat) && !(c.toNat == 127)

theorem parsePair_indent (q a : String) :
    parsePair (indentElem 1 (.mk "qa_pair" none
      [.mk "question" (some q) [], .mk "answer" (some a) []])) =
      .ok ⟨pyStrip q, pyStrip a⟩ := rfl

theorem qa_filter_parse (l : List QAPair) :
    parseAll ((indentChildren 1 (l.map fun p =>
      XElem.mk "qa_pair" none
        [.mk "question" (some p.question) [],
         .mk "answer" (some p.answer) []])).filter
      (fun c => c.tag = "qa_pair")) =
    .ok (l.map fun p => ⟨pyStrip p.question, pyStrip p.answer⟩) := by
  induction l with
  | nil => rfl
  | cons p rest ih =>
    simp only [List.map_cons, indentChildren, List.filter_cons]
    rw [if_pos (by rfl)]
    simp only [parseAll, parsePair_indent, ih]
    rfl

theorem loadPairs_save (pairs : List QAPair) :
    loadPairs (save_evaluation_file pairs) =
      .ok (pairs.map fun p => ⟨pyStrip p.question, pyStrip p.answer⟩) := by
  cases pairs with
  | nil => rfl
  | cons p rest => exact qa_filter_parse (p :: rest)

theorem map_strip_fixed (pairs : List QAPair)
    (htrim : ∀ p ∈ pairs,
      pyStrip p.question = p.question ∧ pyStrip p.answer = p.answer) :
    (pairs.map fun p => (⟨pyStrip p.question, pyStrip p.answer⟩ : QAPair)) =
      pairs := by
  induction pairs with
  | nil => rfl
  | cons p rest ih =>
    obtain ⟨hq, ha⟩ := htrim p (List.mem_cons_self _ _)
    have h2 := ih fun x hx => htrim x (List.mem_cons_of_mem _ hx)
    cases p
    simp_all

/-- C6 amended: the round-trip `save(load(save(pairs)))` reproduces the pairs
exactly when, in addition to the claim's conditions, no question or answer
carries leading or trailing whitespace — the loader strips both ends of each
field, so edge whitespace does not survive the round trip. -/
theorem dataset_roundtrip (pairs : List QAPair)
    (hne : pairs ≠ [])
    (hnonempty : ∀ p ∈ pairs, p.question ≠ "" ∧ p.answer ≠ "")
    (hctl : ∀ p ∈ pairs, noControl p.question = true ∧ noControl p.answer = true)
    (htrim : ∀ p ∈ pairs,
      pyStrip p.question = p.question ∧ pyStrip p.answer = p.answer) :
    loadPairs (save_evaluation_file pairs) = .ok pairs ∧
    (loadPairs (save_evaluation_file pairs)).map save_evaluation_file =
      .ok (save_evaluation_file pairs) := by
  have h1 : loadPairs (save_evaluation_file pairs) = .ok pairs := by
    rw [loadPairs_save, map_strip_fixed pairs htrim]
  exact ⟨h1, by rw [h1]; rfl⟩

/-- C6 counterexample: the pair `(" a", "b")` meets every condition of the
claim — non-empty strings, no control characters — yet the round trip yields
`("a", "b")`: the loader strips the leading space, so the result differs from
the original. -/
theorem dataset_roundtrip_cex :
    (([⟨" a", "b"⟩] : List QAPair) ≠ [] ∧
      (" a" : String) ≠ "" ∧ ("b" : String) ≠ "" ∧
      noControl " a" = true ∧ noControl "b" = true) ∧
    loadPairs (save_evaluation_file [⟨" a", "b"⟩]) = .ok [⟨"a", "b"⟩] ∧
    ([⟨"a", "b"⟩] : List QAPair) ≠ [⟨" a", "b"⟩] :=
  ⟨by decide, rfl, by decide⟩

/-- The concrete dataset for the C6 witness. -/
def c6Pairs : List QAPair := [⟨"2+2?", "4"⟩, ⟨"capital of France?", "Paris"⟩]

/-- Witness for the amended C6 on a concrete trimmed dataset. -/
theorem dataset_roundtrip_witness :
    loadPairs (save_evaluation_file c6Pairs) = .ok c6Pairs ∧
    (loadPairs (save_evaluation_file c6Pairs)).map save_evaluation_file =
      .ok (save_evaluation_file c6Pairs) :=
  dataset_roundtrip c6Pairs (by decide) (by decide) (by decide) (by decide)

end RunEval
